import Mathlib

/-!
Shallow embedding of the flight-simulator core from `src/flight-simulator.py`:
the `Aircraft` state, the `Aircraft.update` integration step, the control
mutations performed by `FlightSimulator.handle_input`, and the camera
rotation composition from `FlightSimulator.render`.  Python floats are
modelled as real numbers; `np.random.random()` is modelled by an explicit
real parameter `r` (with `0 ≤ r < 1` where the numpy contract matters).
-/

namespace FlightSim

/-- Feet-to-meters conversion factor (source constant `FEET_TO_METERS`). -/
noncomputable def FEET_TO_METERS : ℝ := 0.3048

/-- Knots-to-meters-per-second conversion factor (source constant `KNOTS_TO_MPS`). -/
noncomputable def KNOTS_TO_MPS : ℝ := 0.51444

/-- Reference airport elevation in feet (source constant `KIND_ELEVATION`). -/
noncomputable def KIND_ELEVATION : ℝ := 797

/-- Maximum speed in knots (source constant `CESSNA_MAX_SPEED`). -/
noncomputable def CESSNA_MAX_SPEED : ℝ := 140

/-- Cruise speed in knots (source constant `CESSNA_CRUISE_SPEED`). -/
noncomputable def CESSNA_CRUISE_SPEED : ℝ := 122

/-- Stall speed in knots (source constant `CESSNA_STALL_SPEED`). -/
noncomputable def CESSNA_STALL_SPEED : ℝ := 50

/-- Climb rate in feet per minute (source constant `CESSNA_CLIMB_RATE`). -/
noncomputable def CESSNA_CLIMB_RATE : ℝ := 700

/-- Descent rate in feet per minute (source constant `CESSNA_DESCENT_RATE`). -/
noncomputable def CESSNA_DESCENT_RATE : ℝ := -500

/-- Roll rate in degrees per second (source constant `CESSNA_ROLL_RATE`). -/
noncomputable def CESSNA_ROLL_RATE : ℝ := 60

/-- Pitch rate in degrees per second (source constant `CESSNA_PITCH_RATE`). -/
noncomputable def CESSNA_PITCH_RATE : ℝ := 25

/-- Yaw rate in degrees per second (source constant `CESSNA_YAW_RATE`). -/
noncomputable def CESSNA_YAW_RATE : ℝ := 20

/-- Degrees-to-radians conversion, Python's `math.radians`. -/
noncomputable def radians (d : ℝ) : ℝ := d * Real.pi / 180

/-- Real-number version of Python's float `%` operator
(`a % b = a - b * floor (a / b)` in exact arithmetic). -/
noncomputable def realMod (a b : ℝ) : ℝ := a - b * ⌊a / b⌋

/-- The mutable aircraft state (the fields of class `Aircraft`). -/
@[ext] structure Aircraft where
  x : ℝ
  y : ℝ
  z : ℝ
  pitch : ℝ
  roll : ℝ
  heading : ℝ
  airspeed : ℝ
  vertical_speed : ℝ
  throttle : ℝ
  elevator : ℝ
  aileron : ℝ
  rudder : ℝ
  flaps : ℕ
  rpm : ℝ
  fuel : ℝ
  gear_down : Bool

/-- The state built by `Aircraft.__init__`. -/
noncomputable def initAircraft : Aircraft :=
  { x := 0, y := KIND_ELEVATION * FEET_TO_METERS, z := 0,
    pitch := 0, roll := 0, heading := 0,
    airspeed := 0, vertical_speed := 0,
    throttle := 0, elevator := 0, aileron := 0, rudder := 0, flaps := 0,
    rpm := 0, fuel := 100, gear_down := true }

/-- The aircraft state after `FlightSimulator.__init__` repositions it on the
runway (`x = 500`, `heading = 230`). -/
noncomputable def simStart : Aircraft :=
  { initAircraft with x := 500, z := 0, heading := 230 }

/-- Position integration, lines 75-87 of `Aircraft.update`. -/
noncomputable def integratePosition (s : Aircraft) (dt : ℝ) : Aircraft :=
  let heading_rad := radians s.heading
  let pitch_rad := radians s.pitch
  let dx := s.airspeed * Real.sin heading_rad * Real.cos pitch_rad
  let dy := s.airspeed * Real.sin pitch_rad
  let dz := s.airspeed * Real.cos heading_rad * Real.cos pitch_rad
  { s with x := s.x + dx * dt, y := s.y + dy * dt, z := s.z + dz * dt }

/-- Ground collision check, lines 89-93 of `Aircraft.update`. -/
noncomputable def groundCollision (s : Aircraft) : Aircraft :=
  if s.y < KIND_ELEVATION * FEET_TO_METERS then
    { s with y := KIND_ELEVATION * FEET_TO_METERS,
             vertical_speed := 0,
             pitch := max 0 s.pitch }
  else s

/-- Control-input attitude integration, banking coupling, heading
normalization and pitch/roll clamping, lines 95-108 of `Aircraft.update`. -/
noncomputable def attitudePhase (s : Aircraft) (dt : ℝ) : Aircraft :=
  let roll1 := s.roll + s.aileron * CESSNA_ROLL_RATE * dt
  let pitch1 := s.pitch + s.elevator * CESSNA_PITCH_RATE * dt
  let heading1 := s.heading + s.rudder * CESSNA_YAW_RATE * dt
  let heading2 := heading1 + Real.sin (radians roll1) * dt * 10
  { s with roll := max (-60) (min 60 roll1),
           pitch := max (-30) (min 30 pitch1),
           heading := realMod heading2 360 }

/-- Throttle-to-airspeed first-order lag, lines 110-113 of `Aircraft.update`. -/
noncomputable def airspeedLag (s : Aircraft) (dt : ℝ) : Aircraft :=
  { s with airspeed :=
      s.airspeed + (s.throttle * CESSNA_MAX_SPEED * KNOTS_TO_MPS - s.airspeed) * dt * 0.5 }

/-- RPM first-order lag, lines 115-118 of `Aircraft.update`. -/
noncomputable def rpmLag (s : Aircraft) (dt : ℝ) : Aircraft :=
  { s with rpm := s.rpm + (500 + s.throttle * 2300 - s.rpm) * dt * 2 }

/-- Vertical-speed model, lines 120-134 of `Aircraft.update`. -/
noncomputable def verticalSpeedPhase (s : Aircraft) (dt : ℝ) : Aircraft :=
  let target_vs :=
    if 0 < s.pitch then
      CESSNA_CLIMB_RATE * FEET_TO_METERS / 60 * (s.pitch / 10) *
        min 1 (s.airspeed / (CESSNA_CRUISE_SPEED * KNOTS_TO_MPS))
    else if s.pitch < 0 then
      CESSNA_DESCENT_RATE * FEET_TO_METERS / 60 * (|s.pitch| / 10)
    else 0
  { s with vertical_speed :=
      s.vertical_speed + (target_vs - s.vertical_speed) * dt * 0.5 }

/-- Fuel burn, fuel clamp, and flame-out RPM decay, lines 136-142 of
`Aircraft.update`. -/
noncomputable def fuelFlameOut (s : Aircraft) (dt : ℝ) : Aircraft :=
  let fuel1 := max 0 (s.fuel - s.throttle * dt * 0.05)
  if fuel1 ≤ 0 then
    { s with fuel := fuel1, rpm := max 0 (s.rpm - 500 * dt) }
  else
    { s with fuel := fuel1 }

/-- Roll self-leveling, lines 144-146 of `Aircraft.update`. -/
noncomputable def selfLevel (s : Aircraft) : Aircraft :=
  if |s.aileron| < 0.1 then { s with roll := s.roll * 0.95 } else s

/-- Stall behavior, lines 148-154 of `Aircraft.update`; `r` models the
`np.random.random()` draw. -/
noncomputable def stallPhase (s : Aircraft) (dt r : ℝ) : Aircraft :=
  if s.airspeed < CESSNA_STALL_SPEED * KNOTS_TO_MPS * 0.9 then
    if |s.roll| < 5 then
      { s with vertical_speed := s.vertical_speed - 9.8 * dt,
               roll := s.roll + (r - 0.5) * 10 * dt }
    else
      { s with vertical_speed := s.vertical_speed - 9.8 * dt }
  else s

/-- The state just before the stall phase of `Aircraft.update`. -/
noncomputable def preStall (s : Aircraft) (dt : ℝ) : Aircraft :=
  selfLevel (fuelFlameOut (verticalSpeedPhase (rpmLag (airspeedLag
    (attitudePhase (groundCollision (integratePosition s dt)) dt) dt) dt) dt) dt)

/-- One whole `Aircraft.update(dt)` call; `r` models the `np.random.random()`
draw consumed when the stall roll perturbation fires. -/
noncomputable def update (s : Aircraft) (dt r : ℝ) : Aircraft :=
  stallPhase (preStall s dt) dt r

/-- The airspeed value produced by the throttle lag inside a single
`Aircraft.update(dt)` call (the value the stall check reads). -/
noncomputable def airspeedAfterLag (s : Aircraft) (dt : ℝ) : ℝ :=
  s.airspeed + (s.throttle * CESSNA_MAX_SPEED * KNOTS_TO_MPS - s.airspeed) * dt * 0.5

/-- The roll value just before the stall phase of a single
`Aircraft.update(dt)` call (after clamping and self-leveling). -/
noncomputable def rollBeforeStall (s : Aircraft) (dt : ℝ) : ℝ :=
  let roll2 := max (-60) (min 60 (s.roll + s.aileron * CESSNA_ROLL_RATE * dt))
  if |s.aileron| < 0.1 then roll2 * 0.95 else roll2

/-- Per-tick continuous control inputs written by the input layer. -/
structure Controls where
  throttle : ℝ
  elevator : ℝ
  aileron : ℝ
  rudder : ℝ

/-- Writing the per-tick control inputs into the aircraft state. -/
noncomputable def setControls (s : Aircraft) (c : Controls) : Aircraft :=
  { s with throttle := c.throttle, elevator := c.elevator,
           aileron := c.aileron, rudder := c.rudder }

/-- One simulation tick: the control inputs, the frame time, and the random
draw consumed by the stall model. -/
structure Tick where
  ctrl : Controls
  dt : ℝ
  rand : ℝ

/-- A tick whose inputs respect the documented ranges: throttle in `[0,1]`,
`0 < dt ≤ 2`, and a numpy random draw in `[0,1)`. -/
def ValidTick (t : Tick) : Prop :=
  0 ≤ t.ctrl.throttle ∧ t.ctrl.throttle ≤ 1 ∧
  0 < t.dt ∧ t.dt ≤ 2 ∧ 0 ≤ t.rand ∧ t.rand < 1

/-- Running the simulation loop: each tick writes the control inputs and then
calls `Aircraft.update`. -/
noncomputable def runTicks (s : Aircraft) : List Tick → Aircraft
  | [] => s
  | t :: ts => runTicks (update (setControls s t.ctrl) t.dt t.rand) ts

/-- Iterating `Aircraft.update` with fixed `dt`, fixed random draw, and the
controls left untouched between calls. -/
noncomputable def iterUpdate (s : Aircraft) (dt r : ℝ) : ℕ → Aircraft
  | 0 => s
  | n + 1 => update (iterUpdate s dt r n) dt r

/-- The clamping invariants claimed for the state after an update call. -/
def ClaimInv (s : Aircraft) : Prop :=
  (-30 ≤ s.pitch ∧ s.pitch ≤ 30) ∧
  (-60 ≤ s.roll ∧ s.roll ≤ 60) ∧
  (0 ≤ s.heading ∧ s.heading < 360) ∧
  (0 ≤ s.throttle ∧ s.throttle ≤ 1) ∧
  (0 ≤ s.fuel ∧ s.fuel ≤ 100) ∧
  0 ≤ s.airspeed

/-- The inductive hypotheses a pre-update state must satisfy for the clamping
invariants to be re-established by the next update. -/
def PreInv (s : Aircraft) : Prop :=
  0 ≤ s.airspeed ∧ 0 ≤ s.fuel ∧ s.fuel ≤ 100 ∧ 0 ≤ s.throttle ∧ s.throttle ≤ 1

/-- Two aircraft states that agree on every field except `vertical_speed`. -/
def agreeExceptVS (s1 s2 : Aircraft) : Prop :=
  s1.x = s2.x ∧ s1.y = s2.y ∧ s1.z = s2.z ∧
  s1.pitch = s2.pitch ∧ s1.roll = s2.roll ∧ s1.heading = s2.heading ∧
  s1.airspeed = s2.airspeed ∧ s1.throttle = s2.throttle ∧
  s1.elevator = s2.elevator ∧ s1.aileron = s2.aileron ∧ s1.rudder = s2.rudder ∧
  s1.flaps = s2.flaps ∧ s1.rpm = s2.rpm ∧ s1.fuel = s2.fuel ∧
  s1.gear_down = s2.gear_down

/-- Mouse-motion handling in `FlightSimulator.handle_input` (lines 513-524):
elevator and aileron are set proportionally to the mouse movement with
`mouse_sensitivity = 0.1` and no clamping. -/
noncomputable def mouseMotion (s : Aircraft) (dx dy : ℝ) : Aircraft :=
  { s with elevator := -dy * 0.1 / 10, aileron := dx * 0.1 / 10 }

/-- Throttle-increase key handling in `FlightSimulator.handle_input`. -/
noncomputable def throttleUp (s : Aircraft) : Aircraft :=
  { s with throttle := min 1.0 (s.throttle + 0.01) }

/-- Throttle-decrease key handling in `FlightSimulator.handle_input`. -/
noncomputable def throttleDown (s : Aircraft) : Aircraft :=
  { s with throttle := max 0.0 (s.throttle - 0.01) }

/-- Flap-cycle key handling in `FlightSimulator.handle_input`. -/
def flapsCycle (s : Aircraft) : Aircraft :=
  { s with flaps := (s.flaps + 1) % 4 }

/-- Concrete grounded state with full nose-down elevator (used to witness
the pitch-clamp ordering of the ground-collision step). -/
noncomputable def belowGroundNoseDown : Aircraft :=
  { initAircraft with y := KIND_ELEVATION * FEET_TO_METERS - 1, elevator := -1 }

/-- Heading rotation matrix (about the y-axis) built in
`FlightSimulator.render`; the argument is already in radians. -/
noncomputable def R_heading (a : ℝ) : Matrix (Fin 3) (Fin 3) ℝ :=
  Matrix.of ![![Real.cos a, 0, -Real.sin a],
               ![0, 1, 0],
               ![Real.sin a, 0, Real.cos a]]

/-- Pitch rotation matrix (about the x-axis) built in
`FlightSimulator.render`; the argument is already in radians. -/
noncomputable def R_pitch (a : ℝ) : Matrix (Fin 3) (Fin 3) ℝ :=
  Matrix.of ![![1, 0, 0],
               ![0, Real.cos a, Real.sin a],
               ![0, -Real.sin a, Real.cos a]]

/-- Roll rotation matrix (about the z-axis) built in
`FlightSimulator.render`; the argument is already in radians. -/
noncomputable def R_roll (a : ℝ) : Matrix (Fin 3) (Fin 3) ℝ :=
  Matrix.of ![![Real.cos a, Real.sin a, 0],
               ![-Real.sin a, Real.cos a, 0],
               ![0, 0, 1]]

/-- Pilot eye offset `(0, 0.1, -0.3)` set in `FlightSimulator.__init__`. -/
noncomputable def eyeOffset : Fin 3 → ℝ := ![0, 0.1, -0.3]

/-- The composed camera rotation `R = R_roll @ R_pitch @ R_heading` from
`FlightSimulator.render`, taking the aircraft attitude in degrees. -/
noncomputable def cameraRot (heading pitch roll : ℝ) : Matrix (Fin 3) (Fin 3) ℝ :=
  R_roll (radians roll) * R_pitch (radians pitch) * R_heading (radians heading)

/-- The world-space eye position computed in `FlightSimulator.render`:
aircraft position plus the rotated eye offset. -/
noncomputable def eyePosition (pos : Fin 3 → ℝ) (heading pitch roll : ℝ) : Fin 3 → ℝ :=
  fun i => pos i + (cameraRot heading pitch roll).mulVec eyeOffset i

/-! Section: Basic lemmas about the embedding -/

theorem realMod_nonneg (a : ℝ) {b : ℝ} (hb : 0 < b) : 0 ≤ realMod a b := by
  unfold realMod
  have h1 : ((⌊a / b⌋ : ℤ) : ℝ) ≤ a / b := Int.floor_le _
  have h2 : b * ((⌊a / b⌋ : ℤ) : ℝ) ≤ b * (a / b) := by nlinarith
  have h3 : b * (a / b) = a := by field_simp
  linarith

theorem realMod_lt (a : ℝ) {b : ℝ} (hb : 0 < b) : realMod a b < b := by
  unfold realMod
  have h1 : a / b < (⌊a / b⌋ : ℤ) + 1 := Int.lt_floor_add_one _
  have h3 : b * (a / b) = a := by field_simp
  nlinarith

@[simp] theorem ip_pitch (s : Aircraft) (dt : ℝ) :
    (integratePosition s dt).pitch = s.pitch := rfl

@[simp] theorem ip_roll (s : Aircraft) (dt : ℝ) :
    (integratePosition s dt).roll = s.roll := rfl

@[simp] theorem ip_heading (s : Aircraft) (dt : ℝ) :
    (integratePosition s dt).heading = s.heading := rfl

@[simp] theorem ip_airspeed (s : Aircraft) (dt : ℝ) :
    (integratePosition s dt).airspeed = s.airspeed := rfl

@[simp] theorem ip_vs (s : Aircraft) (dt : ℝ) :
    (integratePosition s dt).vertical_speed = s.vertical_speed := rfl

@[simp] theorem ip_throttle (s : Aircraft) (dt : ℝ) :
    (integratePosition s dt).throttle = s.throttle := rfl

@[simp] theorem ip_elevator (s : Aircraft) (dt : ℝ) :
    (integratePosition s dt).elevator = s.elevator := rfl

@[simp] theorem ip_aileron (s : Aircraft) (dt : ℝ) :
    (integratePosition s dt).aileron = s.aileron := rfl

@[simp] theorem ip_rudder (s : Aircraft) (dt : ℝ) :
    (integratePosition s dt).rudder = s.rudder := rfl

@[simp] theorem ip_fuel (s : Aircraft) (dt : ℝ) :
    (integratePosition s dt).fuel = s.fuel := rfl

@[simp] theorem ip_rpm (s : Aircraft) (dt : ℝ) :
    (integratePosition s dt).rpm = s.rpm := rfl

@[simp] theorem ip_flaps (s : Aircraft) (dt : ℝ) :
    (integratePosition s dt).flaps = s.flaps := rfl

@[simp] theorem ip_gear (s : Aircraft) (dt : ℝ) :
    (integratePosition s dt).gear_down = s.gear_down := rfl

@[simp] theorem ip_x (s : Aircraft) (dt : ℝ) :
    (integratePosition s dt).x
      = s.x + s.airspeed * Real.sin (radians s.heading) * Real.cos (radians s.pitch) * dt := rfl

@[simp] theorem ip_y (s : Aircraft) (dt : ℝ) :
    (integratePosition s dt).y = s.y + s.airspeed * Real.sin (radians s.pitch) * dt := rfl

@[simp] theorem ip_z (s : Aircraft) (dt : ℝ) :
    (integratePosition s dt).z
      = s.z + s.airspeed * Real.cos (radians s.heading) * Real.cos (radians s.pitch) * dt := rfl

@[simp] theorem gc_x (s : Aircraft) : (groundCollision s).x = s.x := by
  unfold groundCollision; split <;> rfl

@[simp] theorem gc_z (s : Aircraft) : (groundCollision s).z = s.z := by
  unfold groundCollision; split <;> rfl

@[simp] theorem gc_roll (s : Aircraft) : (groundCollision s).roll = s.roll := by
  unfold groundCollision; split <;> rfl

@[simp] theorem gc_heading (s : Aircraft) : (groundCollision s).heading = s.heading := by
  unfold groundCollision; split <;> rfl

@[simp] theorem gc_airspeed (s : Aircraft) : (groundCollision s).airspeed = s.airspeed := by
  unfold groundCollision; split <;> rfl

@[simp] theorem gc_throttle (s : Aircraft) : (groundCollision s).throttle = s.throttle := by
  unfold groundCollision; split <;> rfl

@[simp] theorem gc_elevator (s : Aircraft) : (groundCollision s).elevator = s.elevator := by
  unfold groundCollision; split <;> rfl

@[simp] theorem gc_aileron (s : Aircraft) : (groundCollision s).aileron = s.aileron := by
  unfold groundCollision; split <;> rfl

@[simp] theorem gc_rudder (s : Aircraft) : (groundCollision s).rudder = s.rudder := by
  unfold groundCollision; split <;> rfl

@[simp] theorem gc_fuel (s : Aircraft) : (groundCollision s).fuel = s.fuel := by
  unfold groundCollision; split <;> rfl

@[simp] theorem gc_rpm (s : Aircraft) : (groundCollision s).rpm = s.rpm := by
  unfold groundCollision; split <;> rfl

@[simp] theorem gc_flaps (s : Aircraft) : (groundCollision s).flaps = s.flaps := by
  unfold groundCollision; split <;> rfl

@[simp] theorem gc_gear (s : Aircraft) : (groundCollision s).gear_down = s.gear_down := by
  unfold groundCollision; split <;> rfl

theorem gc_y (s : Aircraft) :
    (groundCollision s).y
      = if s.y < KIND_ELEVATION * FEET_TO_METERS then KIND_ELEVATION * FEET_TO_METERS
        else s.y := by
  unfold groundCollision; split <;> rfl

theorem gc_pitch (s : Aircraft) :
    (groundCollision s).pitch
      = if s.y < KIND_ELEVATION * FEET_TO_METERS then max 0 s.pitch else s.pitch := by
  unfold groundCollision; split <;> rfl

theorem gc_vs (s : Aircraft) :
    (groundCollision s).vertical_speed
      = if s.y < KIND_ELEVATION * FEET_TO_METERS then 0 else s.vertical_speed := by
  unfold groundCollision; split <;> rfl

/-! Section: Field-level characterization of a whole `update` call -/

theorem update_throttle (s : Aircraft) (dt r : ℝ) :
    (update s dt r).throttle = s.throttle := by
  simp only [update, preStall, stallPhase, selfLevel, fuelFlameOut, verticalSpeedPhase,
    rpmLag, airspeedLag, attitudePhase, apply_ite Aircraft.throttle, ite_self,
    gc_throttle, ip_throttle]

theorem update_elevator (s : Aircraft) (dt r : ℝ) :
    (update s dt r).elevator = s.elevator := by
  simp only [update, preStall, stallPhase, selfLevel, fuelFlameOut, verticalSpeedPhase,
    rpmLag, airspeedLag, attitudePhase, apply_ite Aircraft.elevator, ite_self,
    gc_elevator, ip_elevator]

theorem update_aileron (s : Aircraft) (dt r : ℝ) :
    (update s dt r).aileron = s.aileron := by
  simp only [update, preStall, stallPhase, selfLevel, fuelFlameOut, verticalSpeedPhase,
    rpmLag, airspeedLag, attitudePhase, apply_ite Aircraft.aileron, ite_self,
    gc_aileron, ip_aileron]

theorem update_rudder (s : Aircraft) (dt r : ℝ) :
    (update s dt r).rudder = s.rudder := by
  simp only [update, preStall, stallPhase, selfLevel, fuelFlameOut, verticalSpeedPhase,
    rpmLag, airspeedLag, attitudePhase, apply_ite Aircraft.rudder, ite_self,
    gc_rudder, ip_rudder]

theorem update_flaps (s : Aircraft) (dt r : ℝ) :
    (update s dt r).flaps = s.flaps := by
  simp only [update, preStall, stallPhase, selfLevel, fuelFlameOut, verticalSpeedPhase,
    rpmLag, airspeedLag, attitudePhase, apply_ite Aircraft.flaps, ite_self,
    gc_flaps, ip_flaps]

theorem update_airspeed (s : Aircraft) (dt r : ℝ) :
    (update s dt r).airspeed = airspeedAfterLag s dt := by
  simp only [update, preStall, stallPhase, selfLevel, fuelFlameOut, verticalSpeedPhase,
    rpmLag, airspeedLag, attitudePhase, apply_ite Aircraft.airspeed, ite_self,
    gc_airspeed, ip_airspeed, gc_throttle, ip_throttle, airspeedAfterLag]

theorem update_fuel (s : Aircraft) (dt r : ℝ) :
    (update s dt r).fuel = max 0 (s.fuel - s.throttle * dt * 0.05) := by
  simp only [update, preStall, stallPhase, selfLevel, fuelFlameOut, verticalSpeedPhase,
    rpmLag, airspeedLag, attitudePhase, apply_ite Aircraft.fuel, ite_self,
    gc_fuel, ip_fuel, gc_throttle, ip_throttle]

theorem update_rpm (s : Aircraft) (dt r : ℝ) :
    (update s dt r).rpm =
      if max 0 (s.fuel - s.throttle * dt * 0.05) ≤ 0 then
        max 0 (s.rpm + (500 + s.throttle * 2300 - s.rpm) * dt * 2 - 500 * dt)
      else s.rpm + (500 + s.throttle * 2300 - s.rpm) * dt * 2 := by
  simp only [update, preStall, stallPhase, selfLevel, fuelFlameOut, verticalSpeedPhase,
    rpmLag, airspeedLag, attitudePhase, apply_ite Aircraft.rpm, ite_self,
    gc_rpm, ip_rpm, gc_fuel, ip_fuel, gc_throttle, ip_throttle]

theorem update_heading (s : Aircraft) (dt r : ℝ) :
    (update s dt r).heading =
      realMod ((s.heading + s.rudder * CESSNA_YAW_RATE * dt)
        + Real.sin (radians (s.roll + s.aileron * CESSNA_ROLL_RATE * dt)) * dt * 10) 360 := by
  simp only [update, preStall, stallPhase, selfLevel, fuelFlameOut, verticalSpeedPhase,
    rpmLag, airspeedLag, attitudePhase, apply_ite Aircraft.heading, ite_self,
    gc_heading, ip_heading, gc_roll, ip_roll, gc_rudder, ip_rudder, gc_aileron, ip_aileron]

theorem update_pitch (s : Aircraft) (dt r : ℝ) :
    (update s dt r).pitch =
      max (-30) (min 30 ((groundCollision (integratePosition s dt)).pitch
        + s.elevator * CESSNA_PITCH_RATE * dt)) := by
  simp only [update, preStall, stallPhase, selfLevel, fuelFlameOut, verticalSpeedPhase,
    rpmLag, airspeedLag, attitudePhase, apply_ite Aircraft.pitch, ite_self,
    gc_elevator, ip_elevator]

theorem update_y (s : Aircraft) (dt r : ℝ) :
    (update s dt r).y = (groundCollision (integratePosition s dt)).y := by
  simp only [update, preStall, stallPhase, selfLevel, fuelFlameOut, verticalSpeedPhase,
    rpmLag, airspeedLag, attitudePhase, apply_ite Aircraft.y, ite_self]

theorem update_x (s : Aircraft) (dt r : ℝ) :
    (update s dt r).x
      = s.x + s.airspeed * Real.sin (radians s.heading) * Real.cos (radians s.pitch) * dt := by
  simp only [update, preStall, stallPhase, selfLevel, fuelFlameOut, verticalSpeedPhase,
    rpmLag, airspeedLag, attitudePhase, apply_ite Aircraft.x, ite_self, gc_x, ip_x]

theorem update_z (s : Aircraft) (dt r : ℝ) :
    (update s dt r).z
      = s.z + s.airspeed * Real.cos (radians s.heading) * Real.cos (radians s.pitch) * dt := by
  simp only [update, preStall, stallPhase, selfLevel, fuelFlameOut, verticalSpeedPhase,
    rpmLag, airspeedLag, attitudePhase, apply_ite Aircraft.z, ite_self, gc_z, ip_z]

theorem preStall_airspeed (s : Aircraft) (dt : ℝ) :
    (preStall s dt).airspeed = airspeedAfterLag s dt := by
  simp only [preStall, selfLevel, fuelFlameOut, verticalSpeedPhase,
    rpmLag, airspeedLag, attitudePhase, apply_ite Aircraft.airspeed, ite_self,
    gc_airspeed, ip_airspeed, gc_throttle, ip_throttle, airspeedAfterLag]

theorem preStall_roll (s : Aircraft) (dt : ℝ) :
    (preStall s dt).roll = rollBeforeStall s dt := by
  simp only [preStall, selfLevel, fuelFlameOut, verticalSpeedPhase,
    rpmLag, airspeedLag, attitudePhase, apply_ite Aircraft.roll,
    apply_ite Aircraft.aileron, ite_self,
    gc_roll, ip_roll, gc_aileron, ip_aileron, rollBeforeStall]

theorem update_roll (s : Aircraft) (dt r : ℝ) :
    (update s dt r).roll =
      if airspeedAfterLag s dt < CESSNA_STALL_SPEED * KNOTS_TO_MPS * 0.9 then
        if |rollBeforeStall s dt| < 5 then
          rollBeforeStall s dt + (r - 0.5) * 10 * dt
        else rollBeforeStall s dt
      else rollBeforeStall s dt := by
  rw [update, stallPhase]
  rw [preStall_airspeed, preStall_roll]
  split
  · split <;> simp [preStall_roll]
  · exact preStall_roll s dt

/-! Section: Iterated updates and the airspeed lag (claim C4) -/

theorem iterUpdate_throttle (s : Aircraft) (dt r : ℝ) :
    ∀ n : ℕ, (iterUpdate s dt r n).throttle = s.throttle
  | 0 => rfl
  | n + 1 => by
      rw [show iterUpdate s dt r (n + 1) = update (iterUpdate s dt r n) dt r from rfl,
        update_throttle, iterUpdate_throttle s dt r n]

theorem iterUpdate_airspeed (s : Aircraft) (dt r : ℝ) :
    ∀ n : ℕ, (iterUpdate s dt r n).airspeed
      = s.throttle * CESSNA_MAX_SPEED * KNOTS_TO_MPS
        + (s.airspeed - s.throttle * CESSNA_MAX_SPEED * KNOTS_TO_MPS) * (1 - dt * 0.5) ^ n
  | 0 => by simp only [iterUpdate, pow_zero, mul_one]; ring
  | n + 1 => by
      rw [show iterUpdate s dt r (n + 1) = update (iterUpdate s dt r n) dt r from rfl,
        update_airspeed, airspeedAfterLag, iterUpdate_throttle s dt r n,
        iterUpdate_airspeed s dt r n]
      ring

/-- C4: with throttle held at a constant `k` and `0 < dt ≤ 2`, the airspeed
follows the exact exponential closed form of the first-order lag
`airspeed += (target - airspeed) * dt * 0.5`, converges to
`k × CESSNA_MAX_SPEED × KNOTS_TO_MPS`, and never overshoots the target from
either side. -/
theorem airspeed_lag_convergence (s : Aircraft) (k dt r : ℝ)
    (hk : s.throttle = k) (hdt0 : 0 < dt) (hdt2 : dt ≤ 2) :
    (∀ n : ℕ, (iterUpdate s dt r n).airspeed - k * CESSNA_MAX_SPEED * KNOTS_TO_MPS
        = (s.airspeed - k * CESSNA_MAX_SPEED * KNOTS_TO_MPS) * (1 - dt * 0.5) ^ n) ∧
    Filter.Tendsto (fun n => (iterUpdate s dt r n).airspeed) Filter.atTop
      (nhds (k * CESSNA_MAX_SPEED * KNOTS_TO_MPS)) ∧
    (s.airspeed ≤ k * CESSNA_MAX_SPEED * KNOTS_TO_MPS →
      ∀ n : ℕ, (iterUpdate s dt r n).airspeed ≤ k * CESSNA_MAX_SPEED * KNOTS_TO_MPS) ∧
    (k * CESSNA_MAX_SPEED * KNOTS_TO_MPS ≤ s.airspeed →
      ∀ n : ℕ, k * CESSNA_MAX_SPEED * KNOTS_TO_MPS ≤ (iterUpdate s dt r n).airspeed) := by
  have hq0 : (0 : ℝ) ≤ 1 - dt * 0.5 := by linarith
  have hq1 : 1 - dt * 0.5 < 1 := by linarith
  have hcl : ∀ n : ℕ, (iterUpdate s dt r n).airspeed - k * CESSNA_MAX_SPEED * KNOTS_TO_MPS
      = (s.airspeed - k * CESSNA_MAX_SPEED * KNOTS_TO_MPS) * (1 - dt * 0.5) ^ n := by
    intro n
    rw [iterUpdate_airspeed s dt r n, hk]
    ring
  refine ⟨hcl, ?_, ?_, ?_⟩
  · have hfun : (fun n => (iterUpdate s dt r n).airspeed)
        = fun n : ℕ => k * CESSNA_MAX_SPEED * KNOTS_TO_MPS
          + (s.airspeed - k * CESSNA_MAX_SPEED * KNOTS_TO_MPS) * (1 - dt * 0.5) ^ n := by
      funext n
      have := hcl n
      linarith
    rw [hfun]
    have h2 : Filter.Tendsto (fun n : ℕ => (1 - dt * 0.5) ^ n) Filter.atTop (nhds 0) :=
      tendsto_pow_atTop_nhds_zero_of_lt_one hq0 hq1
    have h3 := (h2.const_mul (s.airspeed - k * CESSNA_MAX_SPEED * KNOTS_TO_MPS)).const_add
      (k * CESSNA_MAX_SPEED * KNOTS_TO_MPS)
    simpa using h3
  · intro hbelow n
    have hp := pow_nonneg hq0 n
    have := hcl n
    nlinarith
  · intro habove n
    have hp := pow_nonneg hq0 n
    have := hcl n
    nlinarith

/-- C4 witness: the convergence theorem applied at the startup state with
throttle 0, `dt = 1`. -/
theorem airspeed_lag_convergence_witness :
    simStart.throttle = 0 ∧ (0 : ℝ) < 1 ∧ (1 : ℝ) ≤ 2 ∧
    Filter.Tendsto (fun n => (iterUpdate simStart 1 0 n).airspeed) Filter.atTop
      (nhds (0 * CESSNA_MAX_SPEED * KNOTS_TO_MPS)) :=
  ⟨rfl, by norm_num, by norm_num,
    (airspeed_lag_convergence simStart 0 1 0 rfl (by norm_num) (by norm_num)).2.1⟩

/-! Section: Clamping invariants (claim C1) -/

theorem rollBeforeStall_lower (s : Aircraft) (dt : ℝ) : -60 ≤ rollBeforeStall s dt := by
  simp only [rollBeforeStall]
  have h1 : (-60 : ℝ) ≤ max (-60) (min 60 (s.roll + s.aileron * CESSNA_ROLL_RATE * dt)) :=
    le_max_left _ _
  split
  · linarith
  · exact h1

theorem rollBeforeStall_upper (s : Aircraft) (dt : ℝ) : rollBeforeStall s dt ≤ 60 := by
  simp only [rollBeforeStall]
  have h1 : (-60 : ℝ) ≤ max (-60) (min 60 (s.roll + s.aileron * CESSNA_ROLL_RATE * dt)) :=
    le_max_left _ _
  have h2 : max (-60) (min 60 (s.roll + s.aileron * CESSNA_ROLL_RATE * dt)) ≤ 60 :=
    max_le (by norm_num) (min_le_left _ _)
  split
  · linarith
  · exact h2

theorem update_claimInv (s : Aircraft) (dt r : ℝ)
    (has : 0 ≤ s.airspeed) (hf0 : 0 ≤ s.fuel) (hf1 : s.fuel ≤ 100)
    (ht0 : 0 ≤ s.throttle) (ht1 : s.throttle ≤ 1)
    (hdt0 : 0 < dt) (hdt2 : dt ≤ 2) (hr0 : 0 ≤ r) (hr1 : r < 1) :
    ClaimInv (update s dt r) := by
  have hRB1 := rollBeforeStall_lower s dt
  have hRB2 := rollBeforeStall_upper s dt
  refine ⟨?_, ?_, ?_, ?_, ?_, ?_⟩
  · rw [update_pitch]
    exact ⟨le_max_left _ _, max_le (by norm_num) (min_le_left _ _)⟩
  · rw [update_roll]
    split_ifs with h1 h2
    · have habs := abs_lt.mp h2
      have hrdt0 : 0 ≤ r * dt := mul_nonneg hr0 hdt0.le
      have hrdt1 : r * dt < 1 * dt := mul_lt_mul_of_pos_right hr1 hdt0
      constructor <;> nlinarith
    · exact ⟨hRB1, hRB2⟩
    · exact ⟨hRB1, hRB2⟩
  · rw [update_heading]
    exact ⟨realMod_nonneg _ (by norm_num), realMod_lt _ (by norm_num)⟩
  · rw [update_throttle]
    exact ⟨ht0, ht1⟩
  · rw [update_fuel]
    refine ⟨le_max_left _ _, max_le (by norm_num) ?_⟩
    nlinarith [mul_nonneg ht0 hdt0.le]
  · rw [update_airspeed, airspeedAfterLag]
    have hCM : (0 : ℝ) ≤ CESSNA_MAX_SPEED := by norm_num [CESSNA_MAX_SPEED]
    have hK : (0 : ℝ) ≤ KNOTS_TO_MPS := by norm_num [KNOTS_TO_MPS]
    have h1 : 0 ≤ s.airspeed * (1 - dt * 0.5) := mul_nonneg has (by linarith)
    have h2 : 0 ≤ s.throttle * CESSNA_MAX_SPEED * KNOTS_TO_MPS * dt :=
      mul_nonneg (mul_nonneg (mul_nonneg ht0 hCM) hK) hdt0.le
    nlinarith [h1, h2]

theorem preInv_of_claimInv (s : Aircraft) (h : ClaimInv s) : PreInv s :=
  ⟨h.2.2.2.2.2, h.2.2.2.2.1.1, h.2.2.2.2.1.2, h.2.2.2.1.1, h.2.2.2.1.2⟩

theorem claimInv_aux : ∀ (ts : List Tick) (s : Aircraft), PreInv s →
    (∀ t ∈ ts, ValidTick t) → ts ≠ [] → ClaimInv (runTicks s ts) := by
  intro ts
  induction ts with
  | nil => intro s _ _ hne; exact absurd rfl hne
  | cons t ts ih =>
    intro s hs hv _
    obtain ⟨hth0, hth1, hdt0, hdt2, hr0, hr1⟩ := hv t (List.mem_cons_self t ts)
    have hstep : ClaimInv (update (setControls s t.ctrl) t.dt t.rand) :=
      update_claimInv _ _ _ hs.1 hs.2.1 hs.2.2.1 hth0 hth1 hdt0 hdt2 hr0 hr1
    cases ts with
    | nil => simpa [runTicks] using hstep
    | cons t2 ts2 =>
      rw [show runTicks s (t :: t2 :: ts2)
            = runTicks (update (setControls s t.ctrl) t.dt t.rand) (t2 :: ts2) from rfl]
      exact ih (update (setControls s t.ctrl) t.dt t.rand) (preInv_of_claimInv _ hstep)
        (fun u hu => hv u (List.mem_cons_of_mem _ hu)) (by simp)

/-- C1 counterexample: with arbitrary `dt > 0` the claimed invariants fail.
Starting from the startup state, full throttle for one second followed by
idle throttle for a single `dt = 4` tick drives the airspeed strictly
negative, because the first-order lag `airspeed += (target - airspeed) * dt * 0.5`
overshoots once `dt > 2`. -/
theorem clamping_invariants_counterexample :
    (∀ t ∈ [(⟨⟨1, 0, 0, 0⟩, 1, 0.5⟩ : Tick), ⟨⟨0, 0, 0, 0⟩, 4, 0.5⟩], 0 < t.dt) ∧
    (runTicks simStart [(⟨⟨1, 0, 0, 0⟩, 1, 0.5⟩ : Tick), ⟨⟨0, 0, 0, 0⟩, 4, 0.5⟩]).airspeed
      < 0 := by
  constructor
  · intro t ht
    simp only [List.mem_cons, List.mem_singleton, List.not_mem_nil, or_false] at ht
    rcases ht with rfl | rfl <;> norm_num
  · rw [show runTicks simStart [(⟨⟨1, 0, 0, 0⟩, 1, 0.5⟩ : Tick), ⟨⟨0, 0, 0, 0⟩, 4, 0.5⟩]
        = update (setControls (update (setControls simStart ⟨1, 0, 0, 0⟩) 1 0.5)
            ⟨0, 0, 0, 0⟩) 4 0.5 from rfl]
    rw [update_airspeed, airspeedAfterLag]
    rw [show (setControls (update (setControls simStart ⟨1, 0, 0, 0⟩) 1 0.5)
          ⟨0, 0, 0, 0⟩).airspeed
        = (update (setControls simStart ⟨1, 0, 0, 0⟩) 1 0.5).airspeed from rfl]
    rw [update_airspeed, airspeedAfterLag]
    norm_num [setControls, simStart, initAircraft, CESSNA_MAX_SPEED, KNOTS_TO_MPS]

/-- C1 (amended): starting from the startup state, after any nonempty
sequence of `Aircraft.update` calls whose throttle inputs lie in `[0, 1]`,
whose time steps satisfy `0 < dt ≤ 2`, and whose random draws lie in
`[0, 1)`, the state satisfies pitch ∈ [-30,30], roll ∈ [-60,60],
heading ∈ [0,360), throttle ∈ [0,1], fuel ∈ [0,100], and airspeed ≥ 0.
(The restriction `dt ≤ 2` is forced: `dt = 4` drives airspeed negative.) -/
theorem clamping_invariants (ts : List Tick)
    (hv : ∀ t ∈ ts, ValidTick t) (hne : ts ≠ []) :
    ClaimInv (runTicks simStart ts) :=
  claimInv_aux ts simStart
    (by refine ⟨?_, ?_, ?_, ?_, ?_⟩ <;> norm_num [simStart, initAircraft])
    hv hne

/-- C1 witness: the amended invariant theorem applied to a single valid tick. -/
theorem clamping_invariants_witness :
    (∀ t ∈ [(⟨⟨0, 0, 0, 0⟩, 1, 0⟩ : Tick)], ValidTick t) ∧
    ([(⟨⟨0, 0, 0, 0⟩, 1, 0⟩ : Tick)] ≠ []) ∧
    ClaimInv (runTicks simStart [⟨⟨0, 0, 0, 0⟩, 1, 0⟩]) := by
  have hv : ∀ t ∈ [(⟨⟨0, 0, 0, 0⟩, 1, 0⟩ : Tick)], ValidTick t := by
    intro t ht
    simp only [List.mem_singleton] at ht
    subst ht
    exact ⟨le_refl 0, by norm_num, by norm_num, by norm_num, le_refl 0, by norm_num⟩
  exact ⟨hv, by simp, clamping_invariants _ hv (by simp)⟩

/-! Section: Ground floor (claim C2) -/

/-- C2 counterexample: on a call that triggers the ground clamp, the
vertical speed is not 0 on return from `update` — the vertical-speed model
and the stall gravity term re-integrate it later in the same call. -/
theorem ground_floor_counterexample :
    ((integratePosition { initAircraft with
        y := KIND_ELEVATION * FEET_TO_METERS - 1 } 1).y
      < KIND_ELEVATION * FEET_TO_METERS) ∧
    (update { initAircraft with y := KIND_ELEVATION * FEET_TO_METERS - 1 } 1 0.5).vertical_speed
      ≠ 0 := by
  constructor
  · rw [ip_y]
    norm_num [initAircraft]
  · norm_num [update, preStall, stallPhase, selfLevel, fuelFlameOut, verticalSpeedPhase,
      rpmLag, airspeedLag, attitudePhase, groundCollision, integratePosition, realMod,
      radians, initAircraft, KIND_ELEVATION, FEET_TO_METERS, KNOTS_TO_MPS,
      CESSNA_MAX_SPEED, CESSNA_CRUISE_SPEED, CESSNA_STALL_SPEED, CESSNA_CLIMB_RATE,
      CESSNA_DESCENT_RATE, CESSNA_ROLL_RATE, CESSNA_PITCH_RATE, CESSNA_YAW_RATE,
      max_le_iff, le_max_iff, min_eq_right, min_eq_left, max_eq_right, max_eq_left]

/-- C2 (amended): if the position integration would bring the altitude below
the reference elevation, then on return from `update` the altitude equals
exactly the reference elevation, and at the ground-collision step the
vertical speed is reset to 0 and pitch is clamped non-negative.  (The
vertical-speed field is re-integrated by the later vertical-speed and stall
steps of the same call, so it need not still be 0 on return.) -/
theorem ground_floor (s : Aircraft) (dt r : ℝ)
    (h : (integratePosition s dt).y < KIND_ELEVATION * FEET_TO_METERS) :
    (update s dt r).y = KIND_ELEVATION * FEET_TO_METERS ∧
    (groundCollision (integratePosition s dt)).vertical_speed = 0 ∧
    0 ≤ (groundCollision (integratePosition s dt)).pitch := by
  refine ⟨?_, ?_, ?_⟩
  · rw [update_y, gc_y, if_pos h]
  · rw [gc_vs, if_pos h]
  · rw [gc_pitch, if_pos h]
    exact le_max_left _ _

/-- C2 witness: the amended ground-floor theorem at a state one meter below
the reference elevation. -/
theorem ground_floor_witness :
    ((integratePosition { initAircraft with
        y := KIND_ELEVATION * FEET_TO_METERS - 1 } 1).y
      < KIND_ELEVATION * FEET_TO_METERS) ∧
    (update { initAircraft with y := KIND_ELEVATION * FEET_TO_METERS - 1 } 1 0.25).y
      = KIND_ELEVATION * FEET_TO_METERS := by
  have h : (integratePosition { initAircraft with
      y := KIND_ELEVATION * FEET_TO_METERS - 1 } 1).y < KIND_ELEVATION * FEET_TO_METERS := by
    rw [ip_y]
    norm_num [initAircraft]
  exact ⟨h, (ground_floor _ 1 0.25 h).1⟩

/-! Section: Fuel burn and flame-out (claim C3) -/

/-- C3 counterexample: with fuel empty and throttle held at 1, the RPM does
not decay toward 0 — the unconditional RPM lag toward `500 + 2300·throttle`
outweighs the flame-out reduction of `500·dt`, so RPM strictly increases
from 500. -/
theorem flameout_counterexample :
    ({ initAircraft with throttle := 1, fuel := 0, rpm := 500 } : Aircraft).fuel = 0 ∧
    ({ initAircraft with throttle := 1, fuel := 0, rpm := 500 } : Aircraft).throttle = 1 ∧
    (0 : ℝ) < ({ initAircraft with throttle := 1, fuel := 0, rpm := 500 } : Aircraft).rpm ∧
    ({ initAircraft with throttle := 1, fuel := 0, rpm := 500 } : Aircraft).rpm
      < (update { initAircraft with throttle := 1, fuel := 0, rpm := 500 } 0.1 0.5).rpm := by
  refine ⟨rfl, rfl, by show (0 : ℝ) < 500; norm_num, ?_⟩
  rw [update_rpm]
  rw [show ({ initAircraft with throttle := 1, fuel := 0, rpm := 500 } : Aircraft).rpm
        = 500 from rfl,
      show ({ initAircraft with throttle := 1, fuel := 0, rpm := 500 } : Aircraft).throttle
        = 1 from rfl,
      show ({ initAircraft with throttle := 1, fuel := 0, rpm := 500 } : Aircraft).fuel
        = 0 from rfl]
  have hcond : max 0 ((0 : ℝ) - 1 * 0.1 * 0.05) ≤ 0 := max_le (le_refl 0) (by norm_num)
  rw [if_pos hcond]
  rw [show max (0 : ℝ) (500 + (500 + 1 * 2300 - 500) * 0.1 * 2 - 500 * 0.1)
        = 500 + (500 + 1 * 2300 - 500) * 0.1 * 2 - 500 * 0.1 from
      max_eq_right (by norm_num)]
  norm_num

/-- C3 (amended): with throttle 0 the fuel is unchanged by an update; with
throttle 1 the fuel strictly decreases while positive (clamped at 0); and
once fuel is 0 with throttle 1, the fuel stays 0 and the RPM becomes
`max 0 (rpm + (500 + 2300·throttle - rpm)·dt·2 - 500·dt)` — the flame-out
term subtracts `500·dt` after the RPM lag, which pulls RPM toward 2550
rather than decaying it toward 0. -/
theorem fuel_and_flameout (s : Aircraft) (dt r : ℝ)
    (hf : 0 ≤ s.fuel) (hdt : 0 < dt) :
    (s.throttle = 0 → (update s dt r).fuel = s.fuel) ∧
    (s.throttle = 1 → 0 < s.fuel → (update s dt r).fuel < s.fuel) ∧
    (s.throttle = 1 → s.fuel = 0 →
      (update s dt r).fuel = 0 ∧
      (update s dt r).rpm
        = max 0 (s.rpm + (500 + s.throttle * 2300 - s.rpm) * dt * 2 - 500 * dt)) := by
  refine ⟨?_, ?_, ?_⟩
  · intro h0
    rw [update_fuel, h0]
    simp [max_eq_right hf]
  · intro h1 hpos
    rw [update_fuel, h1]
    exact max_lt hpos (by linarith)
  · intro h1 hfe
    constructor
    · rw [update_fuel, h1, hfe]
      exact max_eq_left (by linarith)
    · rw [update_rpm, h1, hfe]
      have hcond : max 0 ((0 : ℝ) - 1 * dt * 0.05) ≤ 0 := max_le (le_refl 0) (by linarith)
      rw [if_pos hcond]

/-- C3 witness: the amended fuel theorem at the startup state (throttle 0). -/
theorem fuel_and_flameout_witness :
    0 ≤ simStart.fuel ∧ (0 : ℝ) < 1 ∧ (update simStart 1 0).fuel = simStart.fuel :=
  ⟨by show (0 : ℝ) ≤ 100; norm_num, by norm_num,
    (fuel_and_flameout simStart 1 0 (by show (0 : ℝ) ≤ 100; norm_num) (by norm_num)).1 rfl⟩

/-! Section: Camera transform (claim C5) -/

theorem radians_zero : radians 0 = 0 := by simp [radians]

theorem R_heading_zero : R_heading 0 = 1 := by
  ext i j
  fin_cases i <;> fin_cases j <;>
    simp [R_heading, Matrix.one_apply, Matrix.vecHead, Matrix.vecTail]

theorem R_pitch_zero : R_pitch 0 = 1 := by
  ext i j
  fin_cases i <;> fin_cases j <;>
    simp [R_pitch, Matrix.one_apply, Matrix.vecHead, Matrix.vecTail]

theorem R_roll_zero : R_roll 0 = 1 := by
  ext i j
  fin_cases i <;> fin_cases j <;>
    simp [R_roll, Matrix.one_apply, Matrix.vecHead, Matrix.vecTail]

/-- C5: with heading = pitch = roll = 0 the composed rotation is the
identity and the computed eye position is exactly the aircraft position
plus the eye offset `(0, 0.1, -0.3)`, on every call; and the rotation is
composed as `R = R_roll · R_pitch · R_heading` applied to the eye offset. -/
theorem camera_identity_case :
    (∀ pos : Fin 3 → ℝ, eyePosition pos 0 0 0 = fun i => pos i + eyeOffset i) ∧
    (∀ h p r : ℝ, cameraRot h p r
        = R_roll (radians r) * R_pitch (radians p) * R_heading (radians h)) := by
  constructor
  · intro pos
    have hR : cameraRot 0 0 0 = 1 := by
      rw [cameraRot, radians_zero, R_heading_zero, R_pitch_zero, R_roll_zero]
      simp
    funext i
    rw [eyePosition, hR, Matrix.one_mulVec]
  · intro h p r
    rfl

/-! Section: Heading wrap (claim C6) -/

/-- C6: starting at heading 359 with rudder +1 and an uncompensated heading
increment exceeding 1 degree, the resulting heading is exactly
`(359 + increment) mod 360`, and it is never negative or `≥ 360`. -/
theorem heading_wrap (s : Aircraft) (dt r : ℝ)
    (h359 : s.heading = 359) (hrud : s.rudder = 1)
    (hinc : 1 < CESSNA_YAW_RATE * dt
      + Real.sin (radians (s.roll + s.aileron * CESSNA_ROLL_RATE * dt)) * dt * 10) :
    (update s dt r).heading
      = realMod (359 + (CESSNA_YAW_RATE * dt
          + Real.sin (radians (s.roll + s.aileron * CESSNA_ROLL_RATE * dt)) * dt * 10)) 360 ∧
    0 ≤ (update s dt r).heading ∧ (update s dt r).heading < 360 := by
  refine ⟨?_, ?_, ?_⟩
  · rw [update_heading, h359, hrud]
    congr 1
    ring
  · rw [update_heading]
    exact realMod_nonneg _ (by norm_num)
  · rw [update_heading]
    exact realMod_lt _ (by norm_num)

/-- C6 witness: the heading-wrap theorem at heading 359, rudder +1,
`dt = 0.1` (increment 2 degrees). -/
theorem heading_wrap_witness :
    ((1 : ℝ) < CESSNA_YAW_RATE * 0.1
      + Real.sin (radians (({ initAircraft with heading := 359, rudder := 1 } : Aircraft).roll
          + ({ initAircraft with heading := 359, rudder := 1 } : Aircraft).aileron
            * CESSNA_ROLL_RATE * 0.1)) * 0.1 * 10) ∧
    0 ≤ (update { initAircraft with heading := 359, rudder := 1 } 0.1 0).heading ∧
    (update { initAircraft with heading := 359, rudder := 1 } 0.1 0).heading < 360 := by
  have hinc : (1 : ℝ) < CESSNA_YAW_RATE * 0.1
      + Real.sin (radians (({ initAircraft with heading := 359, rudder := 1 } : Aircraft).roll
          + ({ initAircraft with heading := 359, rudder := 1 } : Aircraft).aileron
            * CESSNA_ROLL_RATE * 0.1)) * 0.1 * 10 := by
    rw [show ({ initAircraft with heading := 359, rudder := 1 } : Aircraft).roll = 0 from rfl,
      show ({ initAircraft with heading := 359, rudder := 1 } : Aircraft).aileron = 0 from rfl]
    norm_num [radians, CESSNA_YAW_RATE]
  obtain ⟨_, hb1, hb2⟩ := heading_wrap _ 0.1 0 rfl rfl hinc
  exact ⟨hinc, hb1, hb2⟩

/-! Section: Determinism outside the stall roll perturbation (claim C7) -/

/-- C7 counterexample: the pre-update airspeed equals `0.9 × stall speed`
(so the claimed condition "airspeed ≥ 0.9 × stall speed" holds, with roll
level), yet two runs with different random draws produce different states:
the stall guard reads the airspeed after the throttle lag, which has
already dropped below the threshold within the same call. -/
theorem stall_determinism_counterexample :
    CESSNA_STALL_SPEED * KNOTS_TO_MPS * 0.9
      ≤ ({ initAircraft with airspeed := 23.1498 } : Aircraft).airspeed ∧
    update { initAircraft with airspeed := 23.1498 } 1 0
      ≠ update { initAircraft with airspeed := 23.1498 } 1 0.5 := by
  have hAS : airspeedAfterLag { initAircraft with airspeed := 23.1498 } 1
      < CESSNA_STALL_SPEED * KNOTS_TO_MPS * 0.9 := by
    rw [airspeedAfterLag,
      show ({ initAircraft with airspeed := 23.1498 } : Aircraft).airspeed = 23.1498 from rfl,
      show ({ initAircraft with airspeed := 23.1498 } : Aircraft).throttle = 0 from rfl]
    norm_num [CESSNA_STALL_SPEED, CESSNA_MAX_SPEED, KNOTS_TO_MPS]
  have hRB : rollBeforeStall { initAircraft with airspeed := 23.1498 } 1 = 0 := by
    simp only [rollBeforeStall, initAircraft]
    norm_num [CESSNA_ROLL_RATE, min_eq_right, max_eq_right]
  constructor
  · show CESSNA_STALL_SPEED * KNOTS_TO_MPS * 0.9 ≤ 23.1498
    norm_num [CESSNA_STALL_SPEED, KNOTS_TO_MPS]
  · intro hEq
    have hroll := congrArg Aircraft.roll hEq
    rw [update_roll, update_roll, if_pos hAS, if_pos hAS] at hroll
    have hin : |rollBeforeStall { initAircraft with airspeed := 23.1498 } 1| < 5 := by
      rw [hRB]; norm_num
    rw [if_pos hin, if_pos hin, hRB] at hroll
    norm_num at hroll

/-- C7 (amended): `Aircraft.update` is deterministic whenever the stall
roll perturbation is not applied, i.e. whenever the airspeed value the
stall check reads (the post-lag airspeed of the same call) is at least
`0.9 × stall speed`, or the roll value it reads (post-clamp,
post-self-leveling) has magnitude at least 5 degrees: then two runs with
the same state, `dt` and controls but different random draws produce
identical states. -/
theorem update_deterministic_no_stall_roll (s : Aircraft) (dt r1 r2 : ℝ)
    (h : CESSNA_STALL_SPEED * KNOTS_TO_MPS * 0.9 ≤ airspeedAfterLag s dt
        ∨ 5 ≤ |rollBeforeStall s dt|) :
    update s dt r1 = update s dt r2 := by
  rw [update, update, stallPhase, stallPhase, preStall_airspeed, preStall_roll]
  split_ifs with h1 h2
  · rcases h with h | h
    · exact absurd h1 (not_lt.mpr h)
    · exact absurd h2 (not_lt.mpr h)
  · rfl
  · rfl

/-- C7 witness: determinism at a state with airspeed 30 m/s and full
throttle, where the post-lag airspeed stays above the stall threshold. -/
theorem update_deterministic_witness :
    (CESSNA_STALL_SPEED * KNOTS_TO_MPS * 0.9
        ≤ airspeedAfterLag { initAircraft with airspeed := 30, throttle := 1 } 0.1
      ∨ 5 ≤ |rollBeforeStall { initAircraft with airspeed := 30, throttle := 1 } 0.1|) ∧
    update { initAircraft with airspeed := 30, throttle := 1 } 0.1 0
      = update { initAircraft with airspeed := 30, throttle := 1 } 0.1 0.5 := by
  have h : CESSNA_STALL_SPEED * KNOTS_TO_MPS * 0.9
      ≤ airspeedAfterLag { initAircraft with airspeed := 30, throttle := 1 } 0.1 := by
    rw [airspeedAfterLag,
      show ({ initAircraft with airspeed := 30, throttle := 1 } : Aircraft).airspeed
        = 30 from rfl,
      show ({ initAircraft with airspeed := 30, throttle := 1 } : Aircraft).throttle
        = 1 from rfl]
    norm_num [CESSNA_STALL_SPEED, CESSNA_MAX_SPEED, KNOTS_TO_MPS]
  exact ⟨Or.inl h, update_deterministic_no_stall_roll _ _ _ _ (Or.inl h)⟩

/-! Section: Input handling (claim C8) -/

/-- C8 counterexample: a mouse-motion event with a large horizontal
movement sets the aileron control to 20, far outside `[-1, 1]`, with no
clamping — not all control inputs are defensively clamped. -/
theorem input_clamping_counterexample :
    (mouseMotion initAircraft 2000 0).aileron = 20 ∧
    ¬ |(mouseMotion initAircraft 2000 0).aileron| ≤ 1 := by
  have h : (mouseMotion initAircraft 2000 0).aileron = 20 := by
    show (2000 : ℝ) * 0.1 / 10 = 20
    norm_num
  refine ⟨h, ?_⟩
  rw [h]
  norm_num

/-- C8 (amended): `Aircraft.update` is total and never fails; the throttle
key adjustments and flap cycling are defensively clamped or wrapped to
their valid ranges; and even for arbitrary (out-of-range) control values
the update keeps pitch within `[-30, 30]` and heading within `[0, 360)`.
(Mouse motion, however, sets elevator/aileron proportionally with no
clamping, so those control inputs can leave `[-1, 1]`.) -/
theorem input_handling (s : Aircraft) (dt r : ℝ)
    (ht0 : 0 ≤ s.throttle) (ht1 : s.throttle ≤ 1) :
    (0 ≤ (throttleUp s).throttle ∧ (throttleUp s).throttle ≤ 1) ∧
    (0 ≤ (throttleDown s).throttle ∧ (throttleDown s).throttle ≤ 1) ∧
    (flapsCycle s).flaps < 4 ∧
    (-30 ≤ (update s dt r).pitch ∧ (update s dt r).pitch ≤ 30) ∧
    (0 ≤ (update s dt r).heading ∧ (update s dt r).heading < 360) := by
  refine ⟨⟨?_, ?_⟩, ⟨?_, ?_⟩, ?_, ?_, ?_⟩
  · show 0 ≤ min 1.0 (s.throttle + 0.01)
    exact le_min (by norm_num) (by linarith)
  · show min 1.0 (s.throttle + 0.01) ≤ 1
    exact le_trans (min_le_left _ _) (by norm_num)
  · show 0 ≤ max 0.0 (s.throttle - 0.01)
    exact le_trans (by norm_num) (le_max_left _ _)
  · show max 0.0 (s.throttle - 0.01) ≤ 1
    exact max_le (by norm_num) (by linarith)
  · show (s.flaps + 1) % 4 < 4
    exact Nat.mod_lt _ (by norm_num)
  · rw [update_pitch]
    exact ⟨le_max_left _ _, max_le (by norm_num) (min_le_left _ _)⟩
  · rw [update_heading]
    exact ⟨realMod_nonneg _ (by norm_num), realMod_lt _ (by norm_num)⟩

/-- C8 witness: the input-handling theorem at the freshly initialized
aircraft. -/
theorem input_handling_witness :
    0 ≤ initAircraft.throttle ∧ initAircraft.throttle ≤ 1 ∧
    (flapsCycle initAircraft).flaps < 4 :=
  ⟨le_refl 0, by show (0 : ℝ) ≤ 1; norm_num,
    (input_handling initAircraft 1 0 (le_refl 0) (by show (0 : ℝ) ≤ 1; norm_num)).2.2.1⟩

/-! Section: Grounded pitch-clamp ordering (claim C10) -/

/-- C10: the non-negative pitch clamp of the ground-collision step is
applied before the elevator integration of the same call, so with a
sufficiently negative elevator input the pitch is strictly negative on
return even though the aircraft ends the call exactly on the ground. -/
theorem grounded_pitch_ordering (s : Aircraft) (dt r : ℝ)
    (h1 : (integratePosition s dt).y < KIND_ELEVATION * FEET_TO_METERS)
    (h2 : max 0 s.pitch + s.elevator * CESSNA_PITCH_RATE * dt < 0) :
    (update s dt r).y = KIND_ELEVATION * FEET_TO_METERS ∧
    (groundCollision (integratePosition s dt)).pitch = max 0 s.pitch ∧
    (update s dt r).pitch < 0 := by
  have hgc : (groundCollision (integratePosition s dt)).pitch = max 0 s.pitch := by
    rw [gc_pitch, if_pos h1, ip_pitch]
  refine ⟨?_, hgc, ?_⟩
  · rw [update_y, gc_y, if_pos h1]
  · rw [update_pitch, hgc]
    rw [min_eq_right (by linarith : max 0 s.pitch + s.elevator * CESSNA_PITCH_RATE * dt ≤ 30)]
    exact max_lt (by norm_num) h2

/-- C10 witness: the grounded pitch-clamp theorem at a state one meter
below the ground with elevator pushed fully forward. -/
theorem grounded_pitch_ordering_witness :
    ((integratePosition belowGroundNoseDown 1).y < KIND_ELEVATION * FEET_TO_METERS) ∧
    (max 0 belowGroundNoseDown.pitch
      + belowGroundNoseDown.elevator * CESSNA_PITCH_RATE * 1 < 0) ∧
    (update belowGroundNoseDown 1 0.5).pitch < 0 := by
  have h1 : (integratePosition belowGroundNoseDown 1).y
      < KIND_ELEVATION * FEET_TO_METERS := by
    rw [ip_y]
    norm_num [belowGroundNoseDown, initAircraft]
  have h2 : max 0 belowGroundNoseDown.pitch
      + belowGroundNoseDown.elevator * CESSNA_PITCH_RATE * 1 < 0 := by
    rw [show belowGroundNoseDown.pitch = 0 from rfl,
      show belowGroundNoseDown.elevator = -1 from rfl]
    norm_num [CESSNA_PITCH_RATE]
  exact ⟨h1, h2, (grounded_pitch_ordering _ 1 0.5 h1 h2).2.2⟩

/-! Section: Position never depends on vertical speed (claim C9) -/

theorem update_agreeExceptVS (s1 s2 : Aircraft) (dt r : ℝ)
    (h : agreeExceptVS s1 s2) :
    agreeExceptVS (update s1 dt r) (update s2 dt r) := by
  obtain ⟨hx, hy, hz, hp, hrl, hh, ha, ht, he, hai, hru, hfl, hrpm, hfu, hg⟩ := h
  refine ⟨?_, ?_, ?_, ?_, ?_, ?_, ?_, ?_, ?_, ?_, ?_, ?_, ?_, ?_, ?_⟩ <;>
    simp only [update, preStall, stallPhase, selfLevel, fuelFlameOut, verticalSpeedPhase,
      rpmLag, airspeedLag, attitudePhase, groundCollision, integratePosition,
      apply_ite Aircraft.x, apply_ite Aircraft.y, apply_ite Aircraft.z,
      apply_ite Aircraft.pitch, apply_ite Aircraft.roll, apply_ite Aircraft.heading,
      apply_ite Aircraft.airspeed, apply_ite Aircraft.throttle,
      apply_ite Aircraft.elevator, apply_ite Aircraft.aileron,
      apply_ite Aircraft.rudder, apply_ite Aircraft.flaps, apply_ite Aircraft.rpm,
      apply_ite Aircraft.fuel, apply_ite Aircraft.gear_down, ite_self,
      hx, hy, hz, hp, hrl, hh, ha, ht, he, hai, hru, hfl, hrpm, hfu, hg]

theorem setControls_agreeExceptVS (s1 s2 : Aircraft) (c : Controls)
    (h : agreeExceptVS s1 s2) :
    agreeExceptVS (setControls s1 c) (setControls s2 c) := by
  obtain ⟨hx, hy, hz, hp, hrl, hh, ha, _, _, _, _, hfl, hrpm, hfu, hg⟩ := h
  exact ⟨hx, hy, hz, hp, hrl, hh, ha, rfl, rfl, rfl, rfl, hfl, hrpm, hfu, hg⟩

theorem runTicks_agreeExceptVS :
    ∀ (ts : List Tick) (s1 s2 : Aircraft), agreeExceptVS s1 s2 →
      agreeExceptVS (runTicks s1 ts) (runTicks s2 ts) := by
  intro ts
  induction ts with
  | nil => intro s1 s2 h; exact h
  | cons t ts ih =>
    intro s1 s2 h
    exact ih _ _ (update_agreeExceptVS _ _ _ _ (setControls_agreeExceptVS _ _ _ h))

/-- C9: in a single `update` call the position fields depend only on the
prior position, airspeed, heading, pitch and `dt` (through the ground
clamp), and never on `vertical_speed`: modifying the vertical speed leaves
the positions of that call and of every subsequent tick unchanged. -/
theorem position_ignores_vertical_speed :
    (∀ (s1 s2 : Aircraft) (dt r : ℝ),
      s1.x = s2.x → s1.y = s2.y → s1.z = s2.z → s1.airspeed = s2.airspeed →
      s1.heading = s2.heading → s1.pitch = s2.pitch →
      (update s1 dt r).x = (update s2 dt r).x ∧
      (update s1 dt r).y = (update s2 dt r).y ∧
      (update s1 dt r).z = (update s2 dt r).z) ∧
    (∀ (s : Aircraft) (v : ℝ) (ts : List Tick),
      (runTicks { s with vertical_speed := v } ts).x = (runTicks s ts).x ∧
      (runTicks { s with vertical_speed := v } ts).y = (runTicks s ts).y ∧
      (runTicks { s with vertical_speed := v } ts).z = (runTicks s ts).z) := by
  constructor
  · intro s1 s2 dt r hx hy hz ha hh hp
    refine ⟨?_, ?_, ?_⟩
    · rw [update_x, update_x, hx, ha, hh, hp]
    · rw [update_y, update_y, gc_y, gc_y, ip_y, ip_y, hy, ha, hp]
    · rw [update_z, update_z, hz, ha, hh, hp]
  · intro s v ts
    have h : agreeExceptVS { s with vertical_speed := v } s :=
      ⟨rfl, rfl, rfl, rfl, rfl, rfl, rfl, rfl, rfl, rfl, rfl, rfl, rfl, rfl, rfl⟩
    have h2 := runTicks_agreeExceptVS ts _ _ h
    exact ⟨h2.1, h2.2.1, h2.2.2.1⟩

/-- C9 witness: changing only the vertical speed of the startup state does
not change the altitude produced by an update call. -/
theorem position_ignores_vertical_speed_witness :
    initAircraft.y = ({ initAircraft with vertical_speed := 5 } : Aircraft).y ∧
    (update initAircraft 1 0).y = (update { initAircraft with vertical_speed := 5 } 1 0).y :=
  ⟨rfl,
    (position_ignores_vertical_speed.1 initAircraft
      { initAircraft with vertical_speed := 5 } 1 0 rfl rfl rfl rfl rfl rfl).2.1⟩

end FlightSim
